import Mathlib

/-!
# LMIA map: filter-and-render pipeline of `script.js`

A shallow embedding of `src/script.js`.  Module-level variables and the parts of
the document the script touches become fields of `State`; every function of the
script becomes a function on `State`.  A result of `none` means that control
leaves the modelled fragment (a `TypeError`, or a call into the map widget with
arguments the script does not define).

Numbers are not computed with floating point: a Number read from the data is
carried by its `ToString` text, and a Number produced by `parseFloat` by the
decimal literal that was read.
-/

namespace Lmia

/-! ## JavaScript values -/

/-- A value found in a field of a record of `data.json` (`undefined` when the
field is missing).  A Number is carried by its `ToString` text, an array or
object by its `ToString` text as well. -/
inductive JSValue where
  | undefined
  | null
  | bool (b : Bool)
  | number (text : String)
  | string (s : String)
  | object (text : String)
deriving DecidableEq, Repr

namespace JSValue

/-- The abstract operation `ToString`. -/
def toStr : JSValue → String
  | undefined => "undefined"
  | null => "null"
  | bool true => "true"
  | bool false => "false"
  | number t => t
  | string s => s
  | object t => t

/-- The abstract operation `ToBoolean`: `undefined`, `null`, `false`, the empty
string and the Numbers `0`, `-0` (both print as `0`) and `NaN` are falsy. -/
def toBoolean : JSValue → Bool
  | undefined => false
  | null => false
  | bool b => b
  | number t => !(t == "0" || t == "NaN")
  | string s => !(s == "")
  | object _ => true

/-- The comparison `v === s` against a string `s`. -/
def strictEqualsString (v : JSValue) (s : String) : Bool :=
  match v with
  | string t => t == s
  | _ => false

/-- The expression `v || fallback` with a string literal on the right. -/
def orElse (v : JSValue) (fallback : String) : JSValue :=
  if v.toBoolean then v else string fallback

end JSValue

/-! ## `parseFloat` -/

/-- Code points of `StrWhiteSpaceChar` (white space and line terminators). -/
def isStrWhiteSpaceChar (c : Char) : Bool :=
  c.toNat ∈ [0x9, 0xA, 0xB, 0xC, 0xD, 0x20, 0xA0, 0x1680, 0x2000, 0x2001, 0x2002,
    0x2003, 0x2004, 0x2005, 0x2006, 0x2007, 0x2008, 0x2009, 0x200A, 0x2028, 0x2029,
    0x202F, 0x205F, 0x3000, 0xFEFF]

/-- Decimal digit `0`..`9`. -/
def isDecimalDigit (c : Char) : Bool :=
  48 ≤ c.toNat && c.toNat ≤ 57

/-- An optional leading sign, split off. -/
def splitSign : List Char → List Char × List Char
  | '+' :: cs => (['+'], cs)
  | '-' :: cs => (['-'], cs)
  | cs => ([], cs)

/-- The longest `ExponentPart` (`e` or `E`, optional sign, at least one digit)
at the head of the input, or nothing. -/
def exponentPart : List Char → List Char
  | c :: cs =>
    if c == 'e' || c == 'E' then
      let (sign, rest) := splitSign cs
      let digits := rest.takeWhile isDecimalDigit
      if digits.isEmpty then [] else c :: (sign ++ digits)
    else []
  | [] => []

/-- The longest `StrUnsignedDecimalLiteral` at the head of the input. -/
def unsignedLiteral (cs : List Char) : Option (List Char) :=
  if "Infinity".toList.isPrefixOf cs then some "Infinity".toList
  else
    let intDigits := cs.takeWhile isDecimalDigit
    let rest := cs.dropWhile isDecimalDigit
    match rest with
    | '.' :: rest1 =>
      let fracDigits := rest1.takeWhile isDecimalDigit
      let rest2 := rest1.dropWhile isDecimalDigit
      if intDigits.isEmpty && fracDigits.isEmpty then none
      else some (intDigits ++ '.' :: fracDigits ++ exponentPart rest2)
    | _ =>
      if intDigits.isEmpty then none
      else some (intDigits ++ exponentPart rest)

/-- The function `parseFloat` on a string: leading white space is skipped and
the longest leading `StrDecimalLiteral` is read; `none` stands for `NaN`, and
`some lit` for the Number denoted by the literal `lit`. -/
def parseFloat (s : String) : Option String :=
  let (sign, rest) := splitSign (s.toList.dropWhile isStrWhiteSpaceChar)
  match unsignedLiteral rest with
  | none => none
  | some lit => some (String.mk (sign ++ lit))

/-- The test `isNaN(parseFloat(v))` of `plotPoints`, the argument first going
through `ToString`. -/
def isNaNParseFloat (v : JSValue) : Bool :=
  (parseFloat v.toStr).isNone

/-! ## `escapeHtml` -/

/-- Serialisation of one character of a text node (`innerHTML` getter). -/
def escapeChar (c : Char) : List Char :=
  if c == '&' then "&amp;".toList
  else if c == '<' then "&lt;".toList
  else if c == '>' then "&gt;".toList
  else if c.toNat == 0xA0 then "&nbsp;".toList
  else [c]

/-- The function `escapeHtml`: the text is assigned to `textContent` of a fresh
`div` (which applies `ToString`) and read back through `innerHTML`. -/
def escapeHtml (text : JSValue) : String :=
  String.mk (text.toStr.toList.flatMap escapeChar)

/-! ## Records and the region registry -/

/-- One record of `data.json`, with the fields the script reads:
`item["Province/Territory"]`, `item["Program Stream"]`, `item.Employer`,
`item.Address`, `item.Occupation`, `item.Latitude`, `item.Longitude`. -/
structure Record where
  ProvinceTerritory : JSValue
  ProgramStream : JSValue
  Employer : JSValue
  Address : JSValue
  Occupation : JSValue
  Latitude : JSValue
  Longitude : JSValue
deriving DecidableEq, Repr

/-- An entry of `mapLocations`.  `center` is in hundredths of a degree and
`zoom` in tenths, so that `[50.28, -117.47]` is `(5028, -11747)` and `4.5` is
`45`. -/
structure RegionDescriptor where
  name : String
  center : Int × Int
  zoom : Nat
  code : String
deriving DecidableEq, Repr

/-- The own properties of the object `mapLocations`. -/
def mapLocations : List (String × RegionDescriptor) :=
  [ ("AB", ⟨"Alberta", (5028, -11747), 60, "AB"⟩),
    ("BC", ⟨"British Columbia", (5415, -12400), 60, "BC"⟩),
    ("MB", ⟨"Manitoba", (5350, -9550), 60, "MB"⟩),
    ("NB", ⟨"New Brunswick", (4634, -6642), 70, "NB"⟩),
    ("NL", ⟨"Newfoundland and Labrador", (5450, -6050), 70, "NL"⟩),
    ("NS", ⟨"Nova Scotia", (4522, -6300), 80, "NS"⟩),
    ("NT", ⟨"Northwest Territories", (6700, -11900), 60, "NT"⟩),
    ("NU", ⟨"Nunavut", (6800, -9000), 45, "NU"⟩),
    ("ON", ⟨"Ontario", (4365, -7938), 80, "ON"⟩),
    ("PE", ⟨"Prince Edward Island", (4650, -6320), 80, "PE"⟩),
    ("QC", ⟨"Quebec", (5325, -6843), 50, "QC"⟩),
    ("SK", ⟨"Saskatchewan", (5294, -10645), 60, "SK"⟩),
    ("YT", ⟨"Yukon", (6500, -13000), 60, "YT"⟩) ]

/-- Property names that `mapLocations[key]` finds on `Object.prototype` when
`key` is not an own property. -/
def objectPrototypeKeys : List String :=
  [ "constructor", "hasOwnProperty", "isPrototypeOf", "propertyIsEnumerable",
    "toLocaleString", "toString", "valueOf", "__proto__", "__defineGetter__",
    "__defineSetter__", "__lookupGetter__", "__lookupSetter__" ]

/-- What the expression `mapLocations[province]` evaluates to. -/
inductive Lookup where
  | descriptor (d : RegionDescriptor)
  | inherited
  | undefined
deriving DecidableEq, Repr

/-- The property access `mapLocations[province]`. -/
def lookup (province : String) : Lookup :=
  match mapLocations.lookup province with
  | some d => .descriptor d
  | none => if province ∈ objectPrototypeKeys then .inherited else .undefined

/-! ## State -/

/-- A marker built by `L.marker([lat, lon])` with its bound popup.  `lat` and
`lon` are the decimal literals read by `parseFloat`. -/
structure Marker where
  lat : String
  lon : String
  popup : String
deriving DecidableEq, Repr

/-- A marker cluster group.  `id` stands for the identity of the object. -/
structure Batch where
  id : Nat
  markers : List Marker
deriving DecidableEq, Repr

/-- The map widget: its view and the marker layers attached to it (the tile
layer is left out).  Units of `center` and `zoom` are those of
`RegionDescriptor`. -/
structure LeafletMap where
  center : Int × Int
  zoom : Nat
  layers : List Batch
deriving DecidableEq, Repr

/-- A banner element of the document: its `textContent` and `style.display`. -/
structure Surface where
  textContent : String
  display : String
deriving DecidableEq, Repr

/-- Module-level variables of the script and the part of the document it uses.
`mapContainer` tells whether `#map` is in the document; `loading`, `error`,
`emptyState` are the elements `#loading`, `#error`, `#empty-state` (`none` when
absent); `mapStatus` is the `textContent` of `#map-status`; `selectProvince` is
the current value of the province control once the variable is assigned;
the two listener flags record `addEventListener`; `nextId` numbers the objects
created by `L.markerClusterGroup`. -/
structure State where
  lmiaData : List Record
  map : Option LeafletMap
  markersClusterGroup : Option Batch
  programStream : String
  selectProvince : Option String
  mapContainer : Bool
  loading : Option Surface
  error : Option Surface
  emptyState : Option Surface
  mapStatus : Option String
  provinceListener : Bool
  programStreamListener : Bool
  nextId : Nat
deriving DecidableEq, Repr

/-! ## Map widget (consumed capability) -/

/-- Widget method `setView(center, zoom)`. -/
def LeafletMap.setView (m : LeafletMap) (center : Int × Int) (zoom : Nat) : LeafletMap :=
  { m with center := center, zoom := zoom }

/-- Widget method `hasLayer`. -/
def LeafletMap.hasLayer (m : LeafletMap) (g : Batch) : Bool :=
  m.layers.any (fun l => l.id == g.id)

/-- Widget method `removeLayer(layer)`: detaches the layer when attached. -/
def LeafletMap.removeLayer (m : LeafletMap) (g : Batch) : LeafletMap :=
  { m with layers := m.layers.filter (fun l => !(l.id == g.id)) }

/-- Widget method `addLayer(layer)`: attaches the layer unless attached. -/
def LeafletMap.addLayer (m : LeafletMap) (g : Batch) : LeafletMap :=
  if m.hasLayer g then m else { m with layers := m.layers ++ [g] }

/-! ## Banners -/

/-- The function `showLoading`. -/
def showLoading (s : State) (isShown : Bool) : State :=
  if isShown then
    match s.loading with
    | some el => { s with loading := some { el with display := "block" } }
    | none =>
      if s.mapContainer then { s with loading := some ⟨"Loading data...", "block"⟩ } else s
  else
    match s.loading with
    | some el => { s with loading := some { el with display := "none" } }
    | none => s

/-- The function `showError`.  An element created while `#map` is absent is
never inserted in the document. -/
def showError (s : State) (message : String) : State :=
  match s.error with
  | some _ => { s with error := some ⟨message, "block"⟩ }
  | none => if s.mapContainer then { s with error := some ⟨message, "block"⟩ } else s

/-- The function `showEmptyState`. -/
def showEmptyState (s : State) (message : String) : State :=
  match s.emptyState with
  | some _ => { s with emptyState := some ⟨message, "block"⟩ }
  | none => if s.mapContainer then { s with emptyState := some ⟨message, "block"⟩ } else s

/-- The function `hideEmptyState`. -/
def hideEmptyState (s : State) : State :=
  match s.emptyState with
  | some el => { s with emptyState := some { el with display := "none" } }
  | none => s

/-! ## Rendering -/

/-- The condition `programStream && programStream !== 'all'`. -/
def streamSelected (programStream : String) : Bool :=
  !(programStream == "") && !(programStream == "all")

/-- The text `streamText` of the templates: `" for <stream> stream"` or empty. -/
def streamText (programStream : String) : String :=
  if streamSelected programStream then " for " ++ programStream ++ " stream" else ""

/-- The function `updateMapStatus`. -/
def updateMapStatus (s : State) (province programStream : String) (markerCount : Nat) :
    Option State :=
  match s.mapStatus with
  | none => some s
  | some _ =>
    match lookup province with
    | .inherited => none
    | .undefined =>
      some { s with mapStatus := some ("Map updated: Showing " ++ toString markerCount ++
        " LMIA applications in " ++ province ++ streamText programStream ++ ".") }
    | .descriptor d =>
      let provinceName := if d.name == "" then province else d.name
      some { s with mapStatus := some ("Map updated: Showing " ++ toString markerCount ++
        " LMIA applications in " ++ provinceName ++ streamText programStream ++ ".") }

/-- The text bound to a marker by `bindPopup`. -/
def popupContent (item : Record) : String :=
  "\n                <strong>" ++ escapeHtml (item.Employer.orElse "Unknown") ++
  "</strong><br>\n                " ++ escapeHtml (item.Address.orElse "Address not available") ++
  "<br>\n                " ++ escapeHtml (item.Occupation.orElse "Occupation not available") ++
  "\n            "

/-- The body of the `forEach` callback of `plotPoints`: the marker pushed for
`item`, if any. -/
def createMarker (item : Record) : Option Marker :=
  match parseFloat item.Latitude.toStr, parseFloat item.Longitude.toStr with
  | some lat, some lon => some { lat := lat, lon := lon, popup := popupContent item }
  | _, _ => none

/-- The two `filter` calls of `plotPoints`. -/
def filterData (lmiaData : List Record) (name programStream : String) : List Record :=
  let filteredData := lmiaData.filter (fun item => item.ProvinceTerritory.strictEqualsString name)
  if streamSelected programStream then
    filteredData.filter (fun item => item.ProgramStream.strictEqualsString programStream)
  else filteredData

/-- The function `plotPoints`. -/
def plotPoints (s : State) (province programStream : String) : Option State :=
  if s.lmiaData.isEmpty then some (showEmptyState s "No data available.")
  else
    match lookup province with
    | .undefined => none
    | .inherited => none
    | .descriptor d =>
      let filteredData := filterData s.lmiaData d.name programStream
      if filteredData.isEmpty then
        some (showEmptyState s
          ("No LMIA applications found" ++ streamText programStream ++ " in " ++ d.name ++ "."))
      else
        let s1 := hideEmptyState s
        let markers := filteredData.filterMap createMarker
        let group : Batch := { id := s1.nextId, markers := markers }
        match s1.map with
        | none => none
        | some m =>
          updateMapStatus
            { s1 with markersClusterGroup := some group, nextId := s1.nextId + 1,
                      map := some (m.addLayer group) }
            province programStream markers.length

/-- The function `setProvince`. -/
def setProvince (s : State) (province stream : String) : Option State :=
  match s.map with
  | none => some s
  | some m =>
    let s1 : State :=
      match s.markersClusterGroup with
      | some g => { s with map := some (m.removeLayer g), markersClusterGroup := none }
      | none => s
    match lookup province, s1.map with
    | .undefined, _ => some s1
    | .inherited, _ => none
    | .descriptor _, none => none
    | .descriptor d, some m1 =>
      plotPoints { s1 with map := some (m1.setView d.center d.zoom) } province stream

/-- The function `handleProvinceChange`; `value` is `event.target.value`. -/
def handleProvinceChange (s : State) (value : String) : Option State :=
  setProvince s value s.programStream

/-- The function `handleProgramStreamChange`; `value` is `event.target.value`. -/
def handleProgramStreamChange (s : State) (value : String) : Option State :=
  match s.selectProvince with
  | none => none
  | some province => setProvince { s with programStream := value } province value

/-! ## Start-up -/

/-- What `init` finds outside the script: the document (`#map`, the banners, the
two controls with the current value of the province control), whether `L.map`
succeeds, and the outcome of `fetch` followed by `response.json()` (`none` when
either fails). -/
structure Env where
  mapContainer : Bool
  loading : Option Surface
  error : Option Surface
  emptyState : Option Surface
  mapStatus : Option String
  leaflet : Bool
  province : Option String
  programStreamControl : Bool
  payload : Option (List Record)
deriving DecidableEq, Repr

/-- The module-level declarations, before `init` runs. -/
def initialState (env : Env) : State :=
  { lmiaData := [], map := none, markersClusterGroup := none, programStream := "all",
    selectProvince := none, mapContainer := env.mapContainer, loading := env.loading,
    error := env.error, emptyState := env.emptyState, mapStatus := env.mapStatus,
    provinceListener := false, programStreamListener := false, nextId := 0 }

/-- The function `initMap`: the map centred on Ontario, or `null`. -/
def initMap (env : Env) : Option LeafletMap :=
  if env.leaflet then some { center := (4365, -7938), zoom := 80, layers := [] } else none

/-- The function `loadLMIAData`: the new `lmiaData` when it returns `true`. -/
def loadLMIAData (env : Env) : Option (List Record) :=
  env.payload

/-- The function `init`. -/
def init (env : Env) : Option State :=
  let s0 := initialState env
  if !env.mapContainer then some (showError s0 "Map container not found!")
  else
    let s1 := showLoading s0 true
    match initMap env with
    | none => some (showError s1 "Failed to initialize map.")
    | some m =>
      let s2 := { s1 with map := some m }
      match env.province with
      | none => some (showError s2 "Province select not found!")
      | some value =>
        let s3 := { s2 with selectProvince := some value, provinceListener := true }
        if !env.programStreamControl then some (showError s3 "Program stream select not found!")
        else
          let s4 := { s3 with programStreamListener := true }
          match loadLMIAData env with
          | none =>
            some (showLoading
              (showError s4 "Failed to load LMIA data. Please refresh the page.") false)
          | some data =>
            let s5 := { s4 with lmiaData := data }
            let defaultProvince := if value == "" then "ON" else value
            (setProvince s5 defaultProvince s5.programStream).map (fun s6 => showLoading s6 false)

/-! ## Selection events -/

/-- A change event on one of the two controls, carrying the chosen value. -/
inductive Event where
  | provinceChange (value : String)
  | programStreamChange (value : String)
deriving DecidableEq, Repr

/-- Delivery of one event: the province control takes its new value, then the
listener, if registered, runs. -/
def dispatch (s : State) : Event → Option State
  | .provinceChange value =>
    let s1 := { s with selectProvince := s.selectProvince.map (fun _ => value) }
    if s1.provinceListener then handleProvinceChange s1 value else some s1
  | .programStreamChange value =>
    if s.programStreamListener then handleProgramStreamChange s value else some s

/-- Delivery of a sequence of events, in order. -/
def run (s : State) : List Event → Option State
  | [] => some s
  | e :: es => (dispatch s e).bind (fun s1 => run s1 es)

/-! ## Observations -/

/-- The batches attached to the map. -/
def attachedBatches (s : State) : List Batch :=
  match s.map with
  | some m => m.layers
  | none => []

/-- The markers shown on the map. -/
def attachedMarkers (s : State) : List Marker :=
  (attachedBatches s).flatMap (fun g => g.markers)

/-- The view of the map: centre and zoom. -/
def mapView (s : State) : Option ((Int × Int) × Nat) :=
  s.map.map (fun m => (m.center, m.zoom))

/-! ## Properties used in the statements -/

/-- Batch invariant of the view: the map exists and the batches attached to it
are exactly the one referenced by `markersClusterGroup`, if any. -/
def ViewInvariant (s : State) : Prop :=
  s.map.isSome = true ∧ attachedBatches s = s.markersClusterGroup.toList

/-- The outcome of a render cycle that finds records to plot: the state `s`
with the view on `d`, the empty-state banner hidden, a fresh batch holding
`markers` attached and referenced, and the status summary published. -/
def renderedState (s : State) (d : RegionDescriptor) (programStream : String)
    (markers : List Marker) : State :=
  { hideEmptyState s with
    map := some { center := d.center, zoom := d.zoom,
                  layers := [{ id := s.nextId, markers := markers }] },
    markersClusterGroup := some { id := s.nextId, markers := markers },
    nextId := s.nextId + 1,
    mapStatus := s.mapStatus.map (fun _ => "Map updated: Showing " ++ toString markers.length ++
      " LMIA applications in " ++ d.name ++ streamText programStream ++ ".") }

/-- The state `s` with the view on `d` and no batch attached or referenced. -/
def clearedState (s : State) (d : RegionDescriptor) : State :=
  { s with map := some { center := d.center, zoom := d.zoom, layers := [] },
           markersClusterGroup := none }

/-- What a render cycle for `(province, stream)` leaves on the map, as the list
of the marker lists of the attached batches. -/
def renderOutcome (lmiaData : List Record) (province stream : String) : List (List Marker) :=
  match lookup province with
  | .descriptor d =>
    if lmiaData.isEmpty then []
    else if (filterData lmiaData d.name stream).isEmpty then []
    else [(filterData lmiaData d.name stream).filterMap createMarker]
  | _ => []

/-- Steps 1 and 2 of the filter as the specification words them: the region
field equals the region name and, unless the category is the sentinel `all`,
the category field equals the category exactly. -/
def selectionMatches (name category : String) (r : Record) : Bool :=
  decide (r.ProvinceTerritory = JSValue.string name) &&
    (category == "all" || decide (r.ProgramStream = JSValue.string category))

/-- Both coordinates of the record parse: neither `parseFloat` yields `NaN`. -/
def coordinatesParse (r : Record) : Bool :=
  !isNaNParseFloat r.Latitude && !isNaNParseFloat r.Longitude

/-- An `ExponentPart` that takes up the whole input, or no input at all. -/
def wholeExponent : List Char → Bool
  | [] => true
  | c :: cs =>
    (c == 'e' || c == 'E') && !(splitSign cs).2.isEmpty && (splitSign cs).2.all isDecimalDigit

/-- An unsigned decimal literal that takes up the whole input: digits with an
optional fraction and an optional exponent. -/
def wholeDecimal (cs : List Char) : Bool :=
  let intDigits := cs.takeWhile isDecimalDigit
  match cs.dropWhile isDecimalDigit with
  | '.' :: rest =>
    !(intDigits.isEmpty && (rest.takeWhile isDecimalDigit).isEmpty) &&
      wholeExponent (rest.dropWhile isDecimalDigit)
  | rest => !intDigits.isEmpty && wholeExponent rest

/-- A string denotes a number, in the words of the specification: all of it,
white space around it apart, is a decimal literal with an optional sign
(`Infinity` included). -/
def denotesNumber (s : String) : Bool :=
  let body :=
    ((s.toList.dropWhile isStrWhiteSpaceChar).reverse.dropWhile isStrWhiteSpaceChar).reverse
  (splitSign body).2 == "Infinity".toList || wholeDecimal (splitSign body).2

/-- A non-numeric coordinate value, in the words of the specification: a
missing value, or a string that does not denote a number. -/
def nonNumeric (v : JSValue) : Bool :=
  match v with
  | .undefined => true
  | .null => true
  | .string s => !denotesNumber s
  | _ => false

/-! ## Sample data -/

/-- A record in Ontario with markup in the employer name and no occupation. -/
def recordToronto : Record :=
  ⟨.string "Ontario", .string "High Wage", .string "Maple <Foods> & Co", .string "1 King St W",
    .undefined, .string "43.65", .number "-79.38"⟩

/-- A record in Ontario of another stream, with no employer and numeric coordinates. -/
def recordOttawa : Record :=
  ⟨.string "Ontario", .string "Low Wage", .null, .string "", .string "Cook",
    .number "45.42", .number "-75.69"⟩

/-- A record in Ontario whose latitude is not a number. -/
def recordBadLatitude : Record :=
  ⟨.string "Ontario", .string "High Wage", .string "Birch Ltd", .string "2 Bay St",
    .string "Welder", .string "abc", .string "-79.40"⟩

/-- A record in Ontario whose latitude is a number followed by a letter. -/
def recordTrailingText : Record :=
  ⟨.string "Ontario", .string "High Wage", .string "Cedar Inc", .string "3 Yonge St",
    .string "Baker", .string "43.6N", .string "-79.3"⟩

/-- A record in Ontario with an empty category. -/
def recordNoStream : Record :=
  ⟨.string "Ontario", .string "", .string "Elm Corp", .string "4 Queen St",
    .string "Clerk", .string "43.70", .string "-79.41"⟩

/-- A record in Nunavut. -/
def recordIqaluit : Record :=
  ⟨.string "Nunavut", .string "High Wage", .string "Arctic Co", .string "5 Ring Rd",
    .string "Mechanic", .string "63.75", .string "-68.52"⟩

/-- A ready state holding `data`, the view on Ontario, no batch attached. -/
def sampleState (data : List Record) : State :=
  { lmiaData := data, map := some { center := (4365, -7938), zoom := 80, layers := [] },
    markersClusterGroup := none, programStream := "all", selectProvince := some "ON",
    mapContainer := true, loading := none, error := none, emptyState := none,
    mapStatus := some "", provinceListener := true, programStreamListener := true, nextId := 0 }

/-- A batch of one marker, the one of `recordToronto`. -/
def sampleBatch : Batch :=
  { id := 0, markers := [{ lat := "43.65", lon := "-79.38", popup := popupContent recordToronto }] }

/-- A ready state displaying `sampleBatch`. -/
def shownState : State :=
  { sampleState [recordToronto, recordIqaluit] with
    map := some { center := (4365, -7938), zoom := 80, layers := [sampleBatch] },
    markersClusterGroup := some sampleBatch, nextId := 1 }

/-- A document with every element the script needs, and a failing data load. -/
def failingEnv : Env :=
  { mapContainer := true, loading := none, error := none, emptyState := none,
    mapStatus := some "", leaflet := true, province := some "ON",
    programStreamControl := true, payload := none }

/-- A record in Ontario with no longitude. -/
def recordNoLongitude : Record :=
  ⟨.string "Ontario", .string "Low Wage", .string "Fir Ltd", .string "6 Bloor St",
    .string "Driver", .string "44.00", .undefined⟩

/-- The marker built from `recordToronto`. -/
def markerToronto : Marker :=
  { lat := "43.65", lon := "-79.38", popup := popupContent recordToronto }

/-- What the specification asks of one label of a popup: the sanitized field
when the field is a non-empty string, and the fixed fallback, which is neither
empty nor the text `undefined` or `null`, when the field is missing, null or
empty; in both cases no angle bracket is left in the label. -/
def LabelOf (field : JSValue) (fallback label : String) : Prop :=
  (∀ t : String, field = JSValue.string t → t ≠ "" → label = escapeHtml (JSValue.string t)) ∧
  (field = JSValue.undefined ∨ field = JSValue.null ∨ field = JSValue.string "" →
    label = fallback ∧ label ≠ "" ∧ label ≠ "undefined" ∧ label ≠ "null") ∧
  '<' ∉ label.toList ∧ '>' ∉ label.toList

/-- The marker lists of the batches attached to the map. -/
def attachedMarkerLists (s : State) : List (List Marker) :=
  (attachedBatches s).map (fun g => g.markers)

/-- The event carries a province code that `mapLocations[code]` does not find
on `Object.prototype` (for such a code the script hands `undefined` to the map
widget, which is outside the model). -/
def Event.Resolvable (e : Event) : Prop :=
  ∀ v, e = Event.provinceChange v → lookup v ≠ Lookup.inherited

/-- States in which every resolvable event is handled inside the model: the
batch invariant holds, the value of the province control is not a member of
`Object.prototype`, and the category listener is registered only once
`selectProvince` is assigned (as `init` does). -/
def EventReady (s : State) : Prop :=
  ViewInvariant s ∧
  (∀ v, s.selectProvince = some v → lookup v ≠ Lookup.inherited) ∧
  (s.programStreamListener = true → s.selectProvince.isSome = true)

/-- States reached after a failed data load: no data, the batch invariant with
no batch referenced, both listeners registered with `selectProvince` assigned,
`#map` in the document, and the status text still `status`. -/
def NoDataState (status : Option String) (s : State) : Prop :=
  s.lmiaData = [] ∧ ViewInvariant s ∧ s.markersClusterGroup = none ∧
  s.mapContainer = true ∧ s.provinceListener = true ∧ s.programStreamListener = true ∧
  s.selectProvince.isSome = true ∧ s.mapStatus = status

/-- A ready state for the event sequence of the idempotence example. -/
def twoRegionState : State :=
  sampleState [recordToronto, recordBadLatitude, recordOttawa, recordIqaluit]

/-! ## Lemmas on the registry and the render cycle -/

theorem lookup_mem (R : String) (d : RegionDescriptor) (h : lookup R = .descriptor d) :
    (R, d) ∈ mapLocations := by
  unfold lookup at h
  cases hl : mapLocations.lookup R with
  | none => rw [hl] at h; simp only at h; split at h <;> cases h
  | some d1 =>
    rw [hl] at h; simp only [Lookup.descriptor.injEq] at h; subst h
    generalize mapLocations = l at hl
    induction l with
    | nil => simp [List.lookup] at hl
    | cons p l ih =>
      obtain ⟨k, v⟩ := p
      simp only [List.lookup] at hl
      split at hl
      · rename_i heq
        simp only [beq_iff_eq] at heq
        cases hl; subst heq; exact List.mem_cons_self _ _
      · exact List.mem_cons_of_mem _ (ih hl)

theorem name_ne_empty (R : String) (d : RegionDescriptor) (h : lookup R = .descriptor d) :
    (d.name == "") = false := by
  have hall : ∀ p ∈ mapLocations, (p.2.name == "") = false := by decide
  exact hall _ (lookup_mem R d h)

theorem setProvince_descriptor (s : State) (R stream : String) (d : RegionDescriptor)
    (hinv : ViewInvariant s) (hl : lookup R = .descriptor d) :
    setProvince s R stream = plotPoints (clearedState s d) R stream := by
  obtain ⟨hm, hlay⟩ := hinv
  cases hmap : s.map with
  | none => rw [hmap] at hm; cases hm
  | some m =>
    simp only [attachedBatches, hmap] at hlay
    cases hg : s.markersClusterGroup with
    | none =>
      simp [setProvince, hmap, hg, hl, clearedState, LeafletMap.setView]
      rw [hg] at hlay; simp at hlay
      simp [hlay]
    | some g =>
      rw [hg] at hlay; simp at hlay
      simp [setProvince, hmap, hg, hl, clearedState, LeafletMap.setView,
        LeafletMap.removeLayer, hlay]

theorem plotPoints_cleared (s : State) (R stream : String) (d : RegionDescriptor)
    (hl : lookup R = .descriptor d) :
    plotPoints (clearedState s d) R stream =
      some (if s.lmiaData = [] then showEmptyState (clearedState s d) "No data available."
        else if filterData s.lmiaData d.name stream = [] then
          showEmptyState (clearedState s d)
            ("No LMIA applications found" ++ streamText stream ++ " in " ++ d.name ++ ".")
        else renderedState (clearedState s d) d stream
          ((filterData s.lmiaData d.name stream).filterMap createMarker)) := by
  have hn := name_ne_empty R d hl
  by_cases h1 : s.lmiaData = []
  · simp [plotPoints, clearedState, h1]
  · by_cases h2 : filterData s.lmiaData d.name stream = []
    · simp [plotPoints, clearedState, h1, h2, hl]
    · cases he : s.emptyState <;> cases hs : s.mapStatus <;>
        simp [plotPoints, clearedState, h1, h2, hl, renderedState, hideEmptyState,
          updateMapStatus, LeafletMap.addLayer, LeafletMap.hasLayer, hn, he, hs]

/-- A render cycle for a registry region, from a state satisfying the batch
invariant, in closed form. -/
theorem setProvince_render (s : State) (R stream : String) (d : RegionDescriptor)
    (hinv : ViewInvariant s) (hl : lookup R = .descriptor d) :
    setProvince s R stream =
      some (if s.lmiaData = [] then showEmptyState (clearedState s d) "No data available."
        else if filterData s.lmiaData d.name stream = [] then
          showEmptyState (clearedState s d)
            ("No LMIA applications found" ++ streamText stream ++ " in " ++ d.name ++ ".")
        else renderedState (clearedState s d) d stream
          ((filterData s.lmiaData d.name stream).filterMap createMarker)) := by
  rw [setProvince_descriptor s R stream d hinv hl, plotPoints_cleared s R stream d hl]

/-- A render cycle for a code that `mapLocations` does not resolve. -/
theorem setProvince_unresolved (s : State) (R stream : String)
    (hinv : ViewInvariant s) (hl : lookup R = .undefined) :
    setProvince s R stream =
      some { s with map := s.map.map (fun m => { m with layers := [] }),
                    markersClusterGroup := none } := by
  obtain ⟨hm, hlay⟩ := hinv
  cases hmap : s.map with
  | none => rw [hmap] at hm; cases hm
  | some m =>
    simp only [attachedBatches, hmap] at hlay
    cases hg : s.markersClusterGroup with
    | none =>
      rw [hg] at hlay; simp at hlay
      simp [setProvince, hmap, hg, hl]
      cases s; cases m; simp_all
    | some g =>
      rw [hg] at hlay; simp at hlay
      simp [setProvince, hmap, hg, hl, LeafletMap.removeLayer, hlay]

@[simp] theorem showEmptyState_fields (s : State) (msg : String) :
    (showEmptyState s msg).map = s.map ∧
    (showEmptyState s msg).markersClusterGroup = s.markersClusterGroup ∧
    (showEmptyState s msg).mapStatus = s.mapStatus ∧
    (showEmptyState s msg).lmiaData = s.lmiaData ∧
    (showEmptyState s msg).programStream = s.programStream ∧
    (showEmptyState s msg).selectProvince = s.selectProvince ∧
    (showEmptyState s msg).mapContainer = s.mapContainer ∧
    (showEmptyState s msg).provinceListener = s.provinceListener ∧
    (showEmptyState s msg).programStreamListener = s.programStreamListener := by
  cases h1 : s.emptyState <;> cases h2 : s.mapContainer <;> simp [showEmptyState, h1, h2]

theorem showEmptyState_emptyState (s : State) (msg : String) (hc : s.mapContainer = true) :
    (showEmptyState s msg).emptyState = some ⟨msg, "block"⟩ := by
  cases h1 : s.emptyState <;> simp [showEmptyState, h1, hc]

theorem strictEqualsString_eq (v : JSValue) (t : String) :
    v.strictEqualsString t = decide (v = JSValue.string t) := by
  cases v with
  | string s => simp only [JSValue.strictEqualsString]; by_cases h : s = t <;> simp [h]
  | _ => simp [JSValue.strictEqualsString]

theorem createMarker_isSome (r : Record) :
    (createMarker r).isSome = coordinatesParse r := by
  unfold createMarker coordinatesParse isNaNParseFloat
  cases parseFloat r.Latitude.toStr <;> cases parseFloat r.Longitude.toStr <;> rfl

theorem map_some_filterMap {α β : Type} (f : α → Option β) (l : List α) :
    (l.filterMap f).map some = (l.filter (fun x => (f x).isSome)).map f := by
  induction l with
  | nil => rfl
  | cons a l ih =>
    cases h : f a with
    | none => simp [List.filterMap_cons, h, ih]
    | some b => simp [List.filterMap_cons, h, ih]

theorem filterData_nil (name stream : String) : filterData [] name stream = [] := by
  unfold filterData; split <;> rfl

theorem filterData_all (data : List Record) (name : String) :
    filterData data name "all" =
      data.filter (fun r => decide (r.ProvinceTerritory = JSValue.string name)) := by
  have h : streamSelected "all" = false := by decide
  simp [filterData, h, strictEqualsString_eq]

theorem filterData_eq_filter (data : List Record) (name c : String) (hc : c ≠ "") :
    filterData data name c = data.filter (selectionMatches name c) := by
  by_cases hall : c = "all"
  · subst hall
    rw [filterData_all]
    apply List.filter_congr
    intro r _
    simp [selectionMatches]
  · have h : streamSelected c = true := by simp [streamSelected, hc, hall]
    simp only [filterData, h, if_true, List.filter_filter]
    apply List.filter_congr
    intro r _
    have hne : (c == "all") = false := by simp [hall]
    simp only [selectionMatches, strictEqualsString_eq, hne, Bool.false_or]
    exact Bool.and_comm _ _

theorem attachedBatches_showEmptyState (s : State) (msg : String) :
    attachedBatches (showEmptyState s msg) = attachedBatches s := by
  simp [attachedBatches]

theorem attachedBatches_clearedState (s : State) (d : RegionDescriptor) :
    attachedBatches (clearedState s d) = [] := rfl

theorem attachedBatches_renderedState (s : State) (d : RegionDescriptor) (stream : String)
    (ms : List Marker) :
    attachedBatches (renderedState s d stream ms) = [{ id := s.nextId, markers := ms }] := rfl

/-- The markers on the map after a render cycle for a registry region. -/
theorem attachedMarkers_setProvince (s : State) (R stream : String) (d : RegionDescriptor)
    (hinv : ViewInvariant s) (hl : lookup R = .descriptor d) :
    ∃ s1, setProvince s R stream = some s1 ∧
      attachedMarkers s1 = (filterData s.lmiaData d.name stream).filterMap createMarker := by
  rw [setProvince_render s R stream d hinv hl]
  refine ⟨_, rfl, ?_⟩
  by_cases h1 : s.lmiaData = []
  · simp [h1, attachedMarkers, attachedBatches_showEmptyState, attachedBatches_clearedState,
      filterData_nil]
  · by_cases h2 : filterData s.lmiaData d.name stream = []
    · simp [h1, h2, attachedMarkers, attachedBatches_showEmptyState,
        attachedBatches_clearedState]
    · simp [h1, h2, attachedMarkers, attachedBatches_renderedState]

/-! ## C1 -/

/-- C1. For every region code `R` of the registry and every record collection
(non-empty or not), the render cycle `setProvince(R, "all")` returns, and the
markers then attached to the map are, in order and one for one, the markers
created from exactly the records whose `Province/Territory` equals the display
name of `R` and whose `Latitude` and `Longitude` both parse. -/
theorem render_all_plots_exactly_region_records (s : State) (R : String)
    (d : RegionDescriptor) (hR : lookup R = .descriptor d) (hinv : ViewInvariant s) :
    ∃ s1, setProvince s R "all" = some s1 ∧
      (attachedMarkers s1).map some =
        (s.lmiaData.filter (fun r =>
          decide (r.ProvinceTerritory = JSValue.string d.name) && coordinatesParse r)).map
          createMarker := by
  obtain ⟨s1, h1, h2⟩ := attachedMarkers_setProvince s R "all" d hinv hR
  refine ⟨s1, h1, ?_⟩
  rw [h2, map_some_filterMap, filterData_all, List.filter_filter]
  congr 1
  apply List.filter_congr
  intro r _
  rw [createMarker_isSome, Bool.and_comm]

theorem render_all_plots_exactly_region_records_witness :
    ∃ s1, setProvince (sampleState [recordToronto, recordBadLatitude, recordIqaluit]) "ON" "all"
        = some s1 ∧
      (attachedMarkers s1).map some =
        ([recordToronto, recordBadLatitude, recordIqaluit].filter (fun r =>
          decide (r.ProvinceTerritory = JSValue.string "Ontario") && coordinatesParse r)).map
          createMarker :=
  render_all_plots_exactly_region_records
    (sampleState [recordToronto, recordBadLatitude, recordIqaluit]) "ON"
    ⟨"Ontario", (4365, -7938), 80, "ON"⟩ (by decide) ⟨rfl, rfl⟩

/-! ## C2 -/

/-- C2, counterexample. With a batch displayed, `setProvince("ZZ", "all")`, for
the code `ZZ` that is not a key of `mapLocations`, returns with no batch attached
to the map: the batch displayed before the call is gone. -/
theorem unknown_region_drops_displayed_batch :
    mapLocations.lookup "ZZ" = none ∧
    attachedBatches shownState = [sampleBatch] ∧
    shownState.markersClusterGroup = some sampleBatch ∧
    (setProvince shownState "ZZ" "all").map attachedBatches = some [] ∧
    (setProvince shownState "ZZ" "all").map attachedBatches ≠ some [sampleBatch] := by
  decide

/-- C2, amended. For every code that `mapLocations` does not resolve,
`setProvince(code, stream)` detaches the batch displayed before the call and
clears `markersClusterGroup`, and changes nothing else: the view is not moved, no
batch is attached, and the banners, the status text and the data stay as they
were. -/
theorem unknown_region_clears_batch_only (s : State) (code stream : String)
    (hinv : ViewInvariant s) (hcode : lookup code = .undefined) :
    ∃ s1, setProvince s code stream = some s1 ∧
      attachedBatches s1 = [] ∧ s1.markersClusterGroup = none ∧
      mapView s1 = mapView s ∧ s1.emptyState = s.emptyState ∧ s1.mapStatus = s.mapStatus ∧
      s1.error = s.error ∧ s1.loading = s.loading ∧ s1.lmiaData = s.lmiaData ∧
      s1.programStream = s.programStream ∧ s1.nextId = s.nextId := by
  rw [setProvince_unresolved s code stream hinv hcode]
  refine ⟨_, rfl, ?_⟩
  obtain ⟨hm, _⟩ := hinv
  cases hmap : s.map with
  | none => rw [hmap] at hm; cases hm
  | some m => simp [attachedBatches, mapView, hmap]

theorem unknown_region_clears_batch_only_witness :
    ∃ s1, setProvince shownState "ZZ" "High Wage" = some s1 ∧
      attachedBatches s1 = [] ∧ s1.markersClusterGroup = none ∧
      mapView s1 = mapView shownState ∧ s1.emptyState = shownState.emptyState ∧
      s1.mapStatus = shownState.mapStatus ∧
      s1.error = shownState.error ∧ s1.loading = shownState.loading ∧
      s1.lmiaData = shownState.lmiaData ∧
      s1.programStream = shownState.programStream ∧ s1.nextId = shownState.nextId :=
  unknown_region_clears_batch_only shownState "ZZ" "High Wage" ⟨rfl, rfl⟩ (by decide)

/-! ## C3 -/

/-- C3, the code at the failing input. With one Ontario record whose latitude
does not parse, the render cycle for Ontario and category `all` attaches an
empty batch, shows no empty-state banner and publishes a status summary with the
count 0, whereas with no Ontario record at all it attaches nothing, shows the
banner and publishes no summary. -/
theorem unparsable_match_differs_from_no_match :
    [recordBadLatitude].filter (selectionMatches "Ontario" "all") = [recordBadLatitude] ∧
    coordinatesParse recordBadLatitude = false ∧
    (setProvince (sampleState [recordBadLatitude]) "ON" "all").map
        (fun s1 => (attachedBatches s1, s1.emptyState, s1.mapStatus)) =
      some ([{ id := 0, markers := [] }], none,
        some "Map updated: Showing 0 LMIA applications in Ontario.") ∧
    [recordIqaluit].filter (selectionMatches "Ontario" "all") = [] ∧
    (setProvince (sampleState [recordIqaluit]) "ON" "all").map
        (fun s1 => (attachedBatches s1, s1.emptyState, s1.mapStatus)) =
      some ([], some ⟨"No LMIA applications found in Ontario.", "block"⟩, some "") := by
  decide

/-! ## C6 -/

/-- C6, counterexample. The category `""` is not the sentinel `all`, yet
`plotPoints("ON", "")`, called directly or through the render cycle, plots the
marker of a record whose `Program Stream` is `High Wage`, and no record of the
collection has the `Program Stream` `""`. -/
theorem empty_category_plots_other_streams :
    ("" : String) ≠ "all" ∧
    (plotPoints (sampleState [recordToronto]) "ON" "").map attachedMarkers =
      some [markerToronto] ∧
    (setProvince (sampleState [recordToronto]) "ON" "").map attachedMarkers =
      some [markerToronto] ∧
    createMarker recordToronto = some markerToronto ∧
    recordToronto.ProgramStream = JSValue.string "High Wage" ∧
    ¬ ∃ r ∈ [recordToronto], r.ProgramStream = JSValue.string "" := by
  decide

/-- C6, amended. For every region `R` of the registry, every record collection
and every category `c` that is neither `all` nor empty, the render cycle
`setProvince(R, c)` returns and the markers it leaves on the map are those of
exactly the records whose region field equals the name of `R`, whose `Program
Stream` equals `c` and whose coordinates parse; so every marker plotted comes
from a record of the collection with that region and that `Program Stream`. -/
theorem category_filter_plots_only_that_stream (s : State) (R c : String)
    (d : RegionDescriptor) (hR : lookup R = .descriptor d) (hinv : ViewInvariant s)
    (hall : c ≠ "all") (hne : c ≠ "") :
    ∃ s1, setProvince s R c = some s1 ∧
      (attachedMarkers s1).map some =
        (s.lmiaData.filter (fun r =>
          decide (r.ProvinceTerritory = JSValue.string d.name) &&
          decide (r.ProgramStream = JSValue.string c) && coordinatesParse r)).map createMarker ∧
      ∀ m ∈ attachedMarkers s1, ∃ r ∈ s.lmiaData,
        r.ProvinceTerritory = JSValue.string d.name ∧ r.ProgramStream = JSValue.string c ∧
        createMarker r = some m := by
  obtain ⟨s1, h1, h2⟩ := attachedMarkers_setProvince s R c d hinv hR
  have hc : (c == "all") = false := by simp [hall]
  refine ⟨s1, h1, ?_, ?_⟩
  · rw [h2, map_some_filterMap, filterData_eq_filter _ _ _ hne, List.filter_filter]
    congr 1
    apply List.filter_congr
    intro r _
    rw [createMarker_isSome, Bool.and_comm]
    simp [selectionMatches, hc]
  · intro m hm
    rw [h2, filterData_eq_filter _ _ _ hne, List.mem_filterMap] at hm
    obtain ⟨r, hr, hrm⟩ := hm
    rw [List.mem_filter] at hr
    obtain ⟨hmem, hsel⟩ := hr
    simp [selectionMatches, hc] at hsel
    exact ⟨r, hmem, hsel.1, hsel.2, hrm⟩

theorem category_filter_plots_only_that_stream_witness :
    ∃ s1, setProvince (sampleState [recordToronto, recordOttawa, recordBadLatitude]) "ON"
        "High Wage" = some s1 ∧
      (attachedMarkers s1).map some =
        ([recordToronto, recordOttawa, recordBadLatitude].filter (fun r =>
          decide (r.ProvinceTerritory = JSValue.string "Ontario") &&
          decide (r.ProgramStream = JSValue.string "High Wage") && coordinatesParse r)).map
          createMarker ∧
      ∀ m ∈ attachedMarkers s1, ∃ r ∈ [recordToronto, recordOttawa, recordBadLatitude],
        r.ProvinceTerritory = JSValue.string "Ontario" ∧
        r.ProgramStream = JSValue.string "High Wage" ∧ createMarker r = some m :=
  category_filter_plots_only_that_stream
    (sampleState [recordToronto, recordOttawa, recordBadLatitude]) "ON" "High Wage"
    ⟨"Ontario", (4365, -7938), 80, "ON"⟩ (by decide) ⟨rfl, rfl⟩ (by decide) (by decide)

/-! ## C7 -/

theorem streamText_all : streamText "all" = "" := by decide

theorem streamText_specific (c : String) (hall : c ≠ "all") (hne : c ≠ "") :
    streamText c = " for " ++ c ++ " stream" := by
  simp [streamText, streamSelected, hall, hne]

/-- C7, counterexample. With the single record `recordIqaluit` (Nunavut, stream
`High Wage`) no record matches the selection of Nunavut with category `""`, yet
the render cycle attaches the marker of that record and shows no empty-state
message. -/
theorem empty_category_no_match_still_plots :
    [recordIqaluit].filter (selectionMatches "Nunavut" "") = [] ∧
    (setProvince (sampleState [recordIqaluit]) "NU" "").map
        (fun s1 => ((attachedMarkers s1).length, s1.emptyState)) = some (1, none) := by
  decide

/-- C7, amended. For every region `R` of the registry, every non-empty record
collection and every category that is `all` or a non-empty `c`, when no record
matches the selection the render cycle returns with no batch attached or
referenced, zero markers on the map, and the empty-state banner displayed with
the text `No LMIA applications found in <name>.` for `all` and
`No LMIA applications found for <c> stream in <name>.` for `c`. -/
theorem no_match_shows_empty_state (s : State) (R c : String) (d : RegionDescriptor)
    (hR : lookup R = .descriptor d) (hinv : ViewInvariant s)
    (hcont : s.mapContainer = true) (hdata : s.lmiaData ≠ []) (hne : c ≠ "")
    (hnone : ∀ r ∈ s.lmiaData, selectionMatches d.name c r = false) :
    ∃ s1 text, setProvince s R c = some s1 ∧
      attachedBatches s1 = [] ∧ s1.markersClusterGroup = none ∧ attachedMarkers s1 = [] ∧
      s1.emptyState = some ⟨text, "block"⟩ ∧
      (c = "all" → text = "No LMIA applications found in " ++ d.name ++ ".") ∧
      (c ≠ "all" →
        text = "No LMIA applications found for " ++ c ++ " stream in " ++ d.name ++ ".") := by
  have hf : filterData s.lmiaData d.name c = [] := by
    rw [filterData_eq_filter _ _ _ hne, List.filter_eq_nil_iff]
    intro r hr
    simp [hnone r hr]
  rw [setProvince_render s R c d hinv hR]
  refine ⟨_, "No LMIA applications found" ++ streamText c ++ " in " ++ d.name ++ ".", rfl, ?_⟩
  simp only [hdata, hf, if_true, if_false]
  refine ⟨?_, ?_, ?_, ?_, ?_, ?_⟩
  · rw [attachedBatches_showEmptyState, attachedBatches_clearedState]
  · simp [clearedState]
  · simp [attachedMarkers, attachedBatches_showEmptyState, attachedBatches_clearedState]
  · exact showEmptyState_emptyState _ _ hcont
  · intro hall
    subst hall
    rw [streamText_all]
    simp only [String.append_assoc]
    rfl
  · intro hall
    rw [streamText_specific c hall hne]
    simp only [String.append_assoc]
    rfl

theorem no_match_shows_empty_state_witness :
    ∃ s1, setProvince (sampleState [recordToronto]) "NU" "all" = some s1 ∧
      attachedBatches s1 = [] ∧ attachedMarkers s1 = [] ∧
      s1.emptyState = some ⟨"No LMIA applications found in Nunavut.", "block"⟩ := by
  obtain ⟨s1, text, h1, h2, _, h4, h5, h6, _⟩ :=
    no_match_shows_empty_state (sampleState [recordToronto]) "NU" "all"
      ⟨"Nunavut", (6800, -9000), 45, "NU"⟩ (by decide) ⟨rfl, rfl⟩ rfl (by decide) (by decide)
      (by decide)
  refine ⟨s1, h1, h2, h4, ?_⟩
  rw [h5, h6 rfl]
  rfl

/-! ## C8 -/

/-- C8, counterexample. For Ontario with category `""`, one record
(`recordNoStream`) matches the selection and its coordinates parse, so one
marker is expected; the render cycle attaches 2 markers and publishes
`Map updated: Showing 2 LMIA applications in Ontario.`, without a stream part. -/
theorem empty_category_status_counts_all_streams :
    ([recordNoStream, recordToronto].filter (fun r =>
        selectionMatches "Ontario" "" r && coordinatesParse r)).length = 1 ∧
    (setProvince (sampleState [recordNoStream, recordToronto]) "ON" "").map
        (fun s1 => ((attachedMarkers s1).length, s1.mapStatus)) =
      some (2, some "Map updated: Showing 2 LMIA applications in Ontario.") := by
  decide

/-- C8, amended. For every region `R` of the registry, every category that is
`all` or a non-empty `c`, and every collection with at least one record matching
the selection, the render cycle returns and the status text is
`Map updated: Showing N LMIA applications in <name>.`, with ` for <c> stream`
before the final period when the category is `c`, where `N` is the number of
markers on the map, equal to the number of matching records whose latitude and
longitude both parse. -/
theorem status_reports_attached_marker_count (s : State) (R c : String)
    (d : RegionDescriptor) (hR : lookup R = .descriptor d) (hinv : ViewInvariant s)
    (hstatus : s.mapStatus.isSome = true) (hne : c ≠ "")
    (hmatch : ∃ r ∈ s.lmiaData, selectionMatches d.name c r = true) :
    ∃ s1, setProvince s R c = some s1 ∧
      (attachedMarkers s1).length =
        (s.lmiaData.filter (fun r => selectionMatches d.name c r && coordinatesParse r)).length ∧
      s1.mapStatus = some ("Map updated: Showing " ++ toString (attachedMarkers s1).length ++
        " LMIA applications in " ++ d.name ++
        (if c = "all" then "" else " for " ++ c ++ " stream") ++ ".") := by
  obtain ⟨r0, hr0, hsel0⟩ := hmatch
  have hf : filterData s.lmiaData d.name c ≠ [] := by
    rw [filterData_eq_filter _ _ _ hne]
    intro h
    rw [List.filter_eq_nil_iff] at h
    exact h r0 hr0 hsel0
  have hdata : s.lmiaData ≠ [] := by
    intro h; rw [h] at hr0; cases hr0
  have htext : streamText c = if c = "all" then "" else " for " ++ c ++ " stream" := by
    by_cases hall : c = "all"
    · subst hall; simp [streamText_all]
    · simp [streamText_specific c hall hne, hall]
  have hlen : ((filterData s.lmiaData d.name c).filterMap createMarker).length =
      (s.lmiaData.filter (fun r => selectionMatches d.name c r && coordinatesParse r)).length := by
    have h := congrArg List.length
      (map_some_filterMap createMarker (filterData s.lmiaData d.name c))
    rw [List.length_map, List.length_map, filterData_eq_filter _ _ _ hne,
      List.filter_filter] at h
    rw [filterData_eq_filter _ _ _ hne, h]
    congr 1
    apply List.filter_congr
    intro r _
    rw [createMarker_isSome, Bool.and_comm]
  rw [setProvince_render s R c d hinv hR]
  refine ⟨_, rfl, ?_⟩
  simp only [hdata, hf, if_false]
  have hms : attachedMarkers (renderedState (clearedState s d) d c
      ((filterData s.lmiaData d.name c).filterMap createMarker)) =
      (filterData s.lmiaData d.name c).filterMap createMarker := by
    simp [attachedMarkers, attachedBatches_renderedState]
  rw [hms]
  refine ⟨hlen, ?_⟩
  cases hst : s.mapStatus with
  | none => rw [hst] at hstatus; cases hstatus
  | some t => simp [renderedState, clearedState, hideEmptyState, hst, htext]

theorem status_reports_attached_marker_count_witness :
    ∃ s1, setProvince (sampleState [recordToronto, recordBadLatitude, recordOttawa,
        recordNoLongitude, recordNoStream]) "ON" "all" = some s1 ∧
      (attachedMarkers s1).length = 3 ∧
      s1.mapStatus = some "Map updated: Showing 3 LMIA applications in Ontario." := by
  obtain ⟨s1, h1, h2, h3⟩ :=
    status_reports_attached_marker_count (sampleState [recordToronto, recordBadLatitude,
      recordOttawa, recordNoLongitude, recordNoStream]) "ON" "all"
      ⟨"Ontario", (4365, -7938), 80, "ON"⟩ (by decide) ⟨rfl, rfl⟩ rfl (by decide)
      ⟨recordToronto, by decide, by decide⟩
  have h4 : (attachedMarkers s1).length = 3 := by rw [h2]; decide
  refine ⟨s1, h1, h4, ?_⟩
  rw [h3, h4]
  decide

/-! ## C9 -/

theorem createMarker_of_isNaN_latitude (r : Record) (h : isNaNParseFloat r.Latitude = true) :
    createMarker r = none := by
  unfold isNaNParseFloat at h
  unfold createMarker
  cases hl : parseFloat r.Latitude.toStr with
  | none => rfl
  | some lat => rw [hl] at h; cases h

theorem filterData_append (l1 l2 : List Record) (name c : String) :
    filterData (l1 ++ l2) name c = filterData l1 name c ++ filterData l2 name c := by
  unfold filterData
  split <;> simp [List.filter_append]

theorem filterMap_filterData_single (r : Record) (name c : String)
    (h : createMarker r = none) :
    (filterData [r] name c).filterMap createMarker = [] := by
  unfold filterData
  split <;> simp only [List.filter_cons, List.filter_nil] <;>
    repeat (first | rfl | split | simp [h])

theorem takeWhile_ne_nil_append {p : Char → Bool} (x t : List Char)
    (h : x.takeWhile p ≠ []) : (x ++ t).takeWhile p ≠ [] := by
  cases x with
  | nil => simp at h
  | cons c r =>
    simp only [List.cons_append, List.takeWhile_cons] at h ⊢
    split
    · simp
    · rename_i hc; rw [if_neg hc] at h; exact absurd rfl h

theorem dropWhile_of_takeWhile_nil {p : Char → Bool} (x : List Char)
    (h : x.takeWhile p = []) : x.dropWhile p = x := by
  cases x with
  | nil => rfl
  | cons c r =>
    simp only [List.takeWhile_cons] at h
    split at h
    · cases h
    · rename_i hc; simp [List.dropWhile_cons, hc]

theorem unsignedLiteral_of_digits (x : List Char) (h : x.takeWhile isDecimalDigit ≠ []) :
    (unsignedLiteral x).isSome = true := by
  unfold unsignedLiteral
  split
  · rfl
  · simp only
    split
    · have : (x.takeWhile isDecimalDigit).isEmpty = false := by
        cases hx : x.takeWhile isDecimalDigit with
        | nil => exact absurd hx h
        | cons _ _ => rfl
      simp [this]
    · have : (x.takeWhile isDecimalDigit).isEmpty = false := by
        cases hx : x.takeWhile isDecimalDigit with
        | nil => exact absurd hx h
        | cons _ _ => rfl
      simp [this]

theorem unsignedLiteral_of_fraction (y : List Char) (h : y.takeWhile isDecimalDigit ≠ []) :
    (unsignedLiteral ('.' :: y)).isSome = true := by
  have hdot : isDecimalDigit '.' = false := by decide
  have hfrac : (y.takeWhile isDecimalDigit).isEmpty = false := by
    cases hx : y.takeWhile isDecimalDigit with
    | nil => exact absurd hx h
    | cons _ _ => rfl
  unfold unsignedLiteral
  split
  · rfl
  · simp [List.takeWhile_cons, List.dropWhile_cons, hdot, hfrac]

theorem wholeDecimal_cases (cs : List Char) (h : wholeDecimal cs = true) :
    cs.takeWhile isDecimalDigit ≠ [] ∨
    ∃ y, cs = '.' :: y ∧ y.takeWhile isDecimalDigit ≠ [] := by
  cases cs with
  | nil => simp [wholeDecimal] at h
  | cons c r =>
    by_cases hc : isDecimalDigit c = true
    · left; simp [List.takeWhile_cons, hc]
    · right
      unfold wholeDecimal at h
      simp only [List.takeWhile_cons, List.dropWhile_cons, hc] at h
      split at h
      · rename_i rest heq
        simp only [Bool.false_eq_true, if_false, List.cons.injEq] at heq
        obtain ⟨h1, h2⟩ := heq
        subst h1 h2
        refine ⟨r, rfl, ?_⟩
        intro hf
        simp [hf] at h
      · simp at h

theorem splitSign_append (body t : List Char) (h : body ≠ []) :
    (splitSign (body ++ t)).2 = (splitSign body).2 ++ t := by
  cases body with
  | nil => exact absurd rfl h
  | cons c r =>
    by_cases h1 : c = '+'
    · subst h1; rfl
    · by_cases h2 : c = '-'
      · subst h2; rfl
      · have e1 : ∀ l : List Char, splitSign (c :: l) = ([], c :: l) := by
          intro l
          unfold splitSign
          split
          · rename_i heq; simp only [List.cons.injEq] at heq; exact absurd heq.1 h1
          · rename_i heq; simp only [List.cons.injEq] at heq; exact absurd heq.1 h2
          · rfl
        rw [List.cons_append, e1, e1]
        rfl

/-- Every string that denotes a number is read by `parseFloat`. -/
theorem parseFloat_of_denotesNumber (s : String) (h : denotesNumber s = true) :
    (parseFloat s).isSome = true := by
  unfold denotesNumber at h
  simp only at h
  generalize hbody :
    ((s.toList.dropWhile isStrWhiteSpaceChar).reverse.dropWhile isStrWhiteSpaceChar).reverse
      = body at h
  have hsplit : s.toList.dropWhile isStrWhiteSpaceChar =
      body ++ ((s.toList.dropWhile isStrWhiteSpaceChar).reverse.takeWhile
        isStrWhiteSpaceChar).reverse := by
    rw [← hbody, ← List.reverse_append, List.takeWhile_append_dropWhile, List.reverse_reverse]
  have hne : body ≠ [] := by
    intro hb
    subst hb
    revert h
    decide
  have hlit : ∀ t : List Char, (unsignedLiteral ((splitSign body).2 ++ t)).isSome = true := by
    intro t
    rw [Bool.or_eq_true] at h
    rcases h with h | h
    · have heq : (splitSign body).2 = "Infinity".toList := by simpa using h
      rw [heq]
      unfold unsignedLiteral
      have hp : "Infinity".toList.isPrefixOf ("Infinity".toList ++ t) = true := by
        rw [List.isPrefixOf_iff_prefix]
        exact List.prefix_append _ _
      rw [if_pos hp]
      rfl
    · rcases wholeDecimal_cases _ h with hd | ⟨y, hy, hd⟩
      · exact unsignedLiteral_of_digits _ (takeWhile_ne_nil_append _ t hd)
      · rw [hy, List.cons_append]
        exact unsignedLiteral_of_fraction _ (takeWhile_ne_nil_append _ t hd)
  unfold parseFloat
  simp only
  rw [hsplit]
  have h2 := splitSign_append body
    ((s.toList.dropWhile isStrWhiteSpaceChar).reverse.takeWhile isStrWhiteSpaceChar).reverse hne
  have h3 := hlit
    ((s.toList.dropWhile isStrWhiteSpaceChar).reverse.takeWhile isStrWhiteSpaceChar).reverse
  rw [← h2] at h3
  cases hu : unsignedLiteral (splitSign (body ++
    ((s.toList.dropWhile isStrWhiteSpaceChar).reverse.takeWhile
      isStrWhiteSpaceChar).reverse)).2 with
  | none => rw [hu] at h3; cases h3
  | some lit => rfl

/-- C9, counterexample. The latitude `43.6N` is a string that does not denote a
number, yet `parseFloat` reads `43.6` from it and the render cycle attaches a
marker for the record. -/
theorem trailing_text_latitude_gets_marker :
    denotesNumber "43.6N" = false ∧
    nonNumeric recordTrailingText.Latitude = true ∧
    createMarker recordTrailingText =
      some { lat := "43.6", lon := "-79.3", popup := popupContent recordTrailingText } ∧
    (setProvince (sampleState [recordTrailingText]) "ON" "all").map attachedMarkers =
      some [{ lat := "43.6", lon := "-79.3", popup := popupContent recordTrailingText }] := by
  decide

/-- C9, amended. For every record whose `Latitude` does not begin, after
optional white space, with a decimal literal (`parseFloat` yields `NaN`: a
missing or null value, a boolean, an empty string, text with no leading number),
no marker is created, whatever its `Longitude` and other fields: the callback
creates none, and the render cycle of any registry region and category leaves
the same markers on the map as it does with the record removed from the
collection.  Such a latitude, when a string, does not denote a number. -/
theorem unparsable_latitude_gets_no_marker (s : State) (R stream : String)
    (d : RegionDescriptor) (before after : List Record) (r : Record)
    (hR : lookup R = .descriptor d) (hinv : ViewInvariant s)
    (hdata : s.lmiaData = before ++ r :: after)
    (hlat : isNaNParseFloat r.Latitude = true) :
    createMarker r = none ∧
    (∀ t, r.Latitude = JSValue.string t → denotesNumber t = false) ∧
    ∃ s1 s2, setProvince s R stream = some s1 ∧
      setProvince { s with lmiaData := before ++ after } R stream = some s2 ∧
      attachedMarkers s1 = attachedMarkers s2 := by
  have hnone := createMarker_of_isNaN_latitude r hlat
  refine ⟨hnone, ?_, ?_⟩
  · intro t ht
    cases hd : denotesNumber t with
    | false => rfl
    | true =>
      have hp := parseFloat_of_denotesNumber t hd
      rw [ht] at hlat
      simp only [isNaNParseFloat, JSValue.toStr] at hlat
      cases hpf : parseFloat t with
      | none => rw [hpf] at hp; cases hp
      | some lit => rw [hpf] at hlat; cases hlat
  obtain ⟨s1, h1, h2⟩ := attachedMarkers_setProvince s R stream d hinv hR
  have hinv2 : ViewInvariant { s with lmiaData := before ++ after } := hinv
  obtain ⟨s2, h3, h4⟩ :=
    attachedMarkers_setProvince { s with lmiaData := before ++ after } R stream d hinv2 hR
  refine ⟨s1, s2, h1, h3, ?_⟩
  rw [h2, h4, hdata]
  have hsplit : before ++ r :: after = before ++ ([r] ++ after) := rfl
  rw [hsplit, filterData_append, filterData_append, filterData_append]
  simp only [List.filterMap_append, filterMap_filterData_single r d.name stream hnone,
    List.nil_append]

theorem unparsable_latitude_gets_no_marker_witness :
    createMarker recordBadLatitude = none ∧
    (∀ t, recordBadLatitude.Latitude = JSValue.string t → denotesNumber t = false) ∧
    ∃ s1 s2, setProvince (sampleState [recordToronto, recordBadLatitude, recordOttawa]) "ON"
        "all" = some s1 ∧
      setProvince { sampleState [recordToronto, recordBadLatitude, recordOttawa] with
        lmiaData := [recordToronto] ++ [recordOttawa] } "ON" "all" = some s2 ∧
      attachedMarkers s1 = attachedMarkers s2 :=
  unparsable_latitude_gets_no_marker
    (sampleState [recordToronto, recordBadLatitude, recordOttawa]) "ON" "all"
    ⟨"Ontario", (4365, -7938), 80, "ON"⟩ [recordToronto] [recordOttawa] recordBadLatitude
    (by decide) ⟨rfl, rfl⟩ rfl (by decide)

/-! ## C10 -/

theorem escapeChar_no_angle (c x : Char) (hx : x ∈ escapeChar c) : x ≠ '<' ∧ x ≠ '>' := by
  unfold escapeChar at hx
  split at hx
  · revert x; decide
  · split at hx
    · revert x; decide
    · split at hx
      · revert x; decide
      · split at hx
        · revert x; decide
        · rename_i _ h1 h2 _
          simp only [List.mem_singleton] at hx
          subst hx
          simp only [beq_iff_eq] at h1 h2
          exact ⟨h1, h2⟩

theorem escapeHtml_no_angle (v : JSValue) :
    '<' ∉ (escapeHtml v).toList ∧ '>' ∉ (escapeHtml v).toList := by
  have hl : (escapeHtml v).toList = v.toStr.toList.flatMap escapeChar := rfl
  rw [hl]
  simp only [List.mem_flatMap, not_exists, not_and]
  constructor
  · intro c _ hx
    exact (escapeChar_no_angle c _ hx).1 rfl
  · intro c _ hx
    exact (escapeChar_no_angle c _ hx).2 rfl

theorem labelOf_orElse (field : JSValue) (fallback : String)
    (hfb : escapeHtml (JSValue.string fallback) = fallback) (h1 : fallback ≠ "")
    (h2 : fallback ≠ "undefined") (h3 : fallback ≠ "null") :
    LabelOf field fallback (escapeHtml (field.orElse fallback)) := by
  refine ⟨?_, ?_, (escapeHtml_no_angle _).1, (escapeHtml_no_angle _).2⟩
  · intro t ht hne
    subst ht
    simp [JSValue.orElse, JSValue.toBoolean, hne]
  · intro h
    have hor : field.orElse fallback = JSValue.string fallback := by
      rcases h with h | h | h <;> subst h <;> rfl
    rw [hor, hfb]
    exact ⟨rfl, h1, h2, h3⟩

/-- C10. For every plotted record, the popup of its marker is the template of
`bindPopup` filled with three labels, and each label is the sanitized field when
the field is a non-empty string, and otherwise (field missing, null or empty)
the fixed fallback `Unknown`, `Address not available`, `Occupation not
available`, never an empty line nor the text `undefined` or `null`; no angle
bracket of a field reaches a label. -/
theorem popup_labels_sanitized_or_fallback (item : Record) (m : Marker)
    (hm : createMarker item = some m) :
    ∃ employer address occupation : String,
      m.popup = "\n                <strong>" ++ employer ++ "</strong><br>\n                " ++
        address ++ "<br>\n                " ++ occupation ++ "\n            " ∧
      LabelOf item.Employer "Unknown" employer ∧
      LabelOf item.Address "Address not available" address ∧
      LabelOf item.Occupation "Occupation not available" occupation := by
  have hp : m.popup = popupContent item := by
    unfold createMarker at hm
    split at hm
    · cases hm; rfl
    · cases hm
  exact ⟨_, _, _, hp,
    labelOf_orElse _ _ (by decide) (by decide) (by decide) (by decide),
    labelOf_orElse _ _ (by decide) (by decide) (by decide) (by decide),
    labelOf_orElse _ _ (by decide) (by decide) (by decide) (by decide)⟩

theorem popup_labels_sanitized_or_fallback_witness :
    ∃ employer address occupation : String,
      markerToronto.popup =
        "\n                <strong>" ++ employer ++ "</strong><br>\n                " ++
        address ++ "<br>\n                " ++ occupation ++ "\n            " ∧
      LabelOf recordToronto.Employer "Unknown" employer ∧
      LabelOf recordToronto.Address "Address not available" address ∧
      LabelOf recordToronto.Occupation "Occupation not available" occupation :=
  popup_labels_sanitized_or_fallback recordToronto markerToronto (by decide)

/-! ## C5 -/

theorem viewInvariant_showEmptyState_cleared (s : State) (d : RegionDescriptor) (msg : String) :
    ViewInvariant (showEmptyState (clearedState s d) msg) := by
  constructor
  · simp [clearedState]
  · rw [attachedBatches_showEmptyState]
    simp [clearedState, attachedBatches]

theorem viewInvariant_renderedState (s : State) (d : RegionDescriptor) (stream : String)
    (ms : List Marker) : ViewInvariant (renderedState s d stream ms) :=
  ⟨rfl, rfl⟩

/-- One render cycle from a state satisfying the batch invariant: it returns,
keeps the invariant, leaves data, selection variables and listeners alone, and
what it leaves on the map depends on the data and the selection only. -/
theorem setProvince_step (s : State) (v stream : String) (hinv : ViewInvariant s)
    (hv : lookup v ≠ Lookup.inherited) :
    ∃ s1, setProvince s v stream = some s1 ∧ ViewInvariant s1 ∧
      s1.lmiaData = s.lmiaData ∧ s1.programStream = s.programStream ∧
      s1.selectProvince = s.selectProvince ∧ s1.provinceListener = s.provinceListener ∧
      s1.programStreamListener = s.programStreamListener ∧
      attachedMarkerLists s1 = renderOutcome s.lmiaData v stream := by
  cases hl : lookup v with
  | inherited => exact absurd hl hv
  | undefined =>
    rw [setProvince_unresolved s v stream hinv hl]
    refine ⟨_, rfl, ?_, rfl, rfl, rfl, rfl, rfl, ?_⟩
    · obtain ⟨hm, _⟩ := hinv
      cases hmap : s.map with
      | none => rw [hmap] at hm; cases hm
      | some m => exact ⟨by simp [hmap], by simp [attachedBatches, hmap]⟩
    · obtain ⟨hm, _⟩ := hinv
      cases hmap : s.map with
      | none => rw [hmap] at hm; cases hm
      | some m => simp [attachedMarkerLists, attachedBatches, hmap, renderOutcome, hl]
  | descriptor d =>
    rw [setProvince_render s v stream d hinv hl]
    refine ⟨_, rfl, ?_⟩
    by_cases h1 : s.lmiaData = []
    · simp only [h1, if_true]
      refine ⟨viewInvariant_showEmptyState_cleared s d _, ?_⟩
      simp [clearedState, h1, attachedMarkerLists, attachedBatches, renderOutcome, hl]
    · by_cases h2 : filterData s.lmiaData d.name stream = []
      · simp only [h1, h2, if_true, if_false]
        refine ⟨viewInvariant_showEmptyState_cleared s d _, ?_⟩
        simp [clearedState, h1, h2, attachedMarkerLists, attachedBatches, renderOutcome, hl]
      · simp only [h1, h2, if_false]
        refine ⟨viewInvariant_renderedState _ d _ _, ?_⟩
        cases he : s.emptyState <;>
          simp [renderedState, clearedState, hideEmptyState, he, h1, h2, attachedMarkerLists,
            attachedBatches, renderOutcome, hl]

theorem attachedBatches_length_le_one (s : State) (hinv : ViewInvariant s) :
    (attachedBatches s).length ≤ 1 := by
  rw [hinv.2]
  cases s.markersClusterGroup <;> simp

/-- Delivery of a resolvable event, twice in a row, from a ready state. -/
theorem dispatch_twice (s : State) (e : Event) (hs : EventReady s) (he : e.Resolvable) :
    ∃ s1 s2, dispatch s e = some s1 ∧ dispatch s1 e = some s2 ∧ EventReady s1 ∧
      EventReady s2 ∧ attachedMarkerLists s2 = attachedMarkerLists s1 := by
  obtain ⟨hinv, hsel, hlis⟩ := hs
  cases e with
  | provinceChange v =>
    have hv : lookup v ≠ Lookup.inherited := he v rfl
    have hsel1 : ∀ (t : State), t.selectProvince = s.selectProvince.map (fun _ => v) →
        ∀ w, t.selectProvince = some w → lookup w ≠ Lookup.inherited := by
      intro t ht w hw
      rw [ht] at hw
      cases hsp : s.selectProvince with
      | none => rw [hsp] at hw; cases hw
      | some p => rw [hsp] at hw; simp at hw; subst hw; exact hv
    have hmm : ∀ (o : Option String), (o.map (fun _ => v)).map (fun _ => v) = o.map (fun _ => v) := by
      intro o; cases o <;> rfl
    cases hpl : s.provinceListener with
    | false =>
      refine ⟨{ s with selectProvince := s.selectProvince.map (fun _ => v) },
        { s with selectProvince := s.selectProvince.map (fun _ => v) }, ?_, ?_, ?_, ?_, rfl⟩
      · simp [dispatch, hpl]
      · simp [dispatch, hpl, hmm]
      · refine ⟨hinv, hsel1 _ rfl, ?_⟩
        intro h; have := hlis h
        cases hsp : s.selectProvince with
        | none => rw [hsp] at this; cases this
        | some p => rfl
      · refine ⟨hinv, hsel1 _ rfl, ?_⟩
        intro h; have := hlis h
        cases hsp : s.selectProvince with
        | none => rw [hsp] at this; cases this
        | some p => rfl
    | true =>
      have hinv0 : ViewInvariant { s with selectProvince := s.selectProvince.map (fun _ => v) } :=
        hinv
      obtain ⟨s1, h1, hi1, hd1, hp1, hs1, hl1, hm1, ho1⟩ :=
        setProvince_step { s with selectProvince := s.selectProvince.map (fun _ => v) } v
          s.programStream hinv0 hv
      have hinv1 : ViewInvariant { s1 with selectProvince := s1.selectProvince.map (fun _ => v) } :=
        hi1
      obtain ⟨s2, h2, hi2, hd2, hp2, hs2, hl2, hm2, ho2⟩ :=
        setProvince_step { s1 with selectProvince := s1.selectProvince.map (fun _ => v) } v
          s1.programStream hinv1 hv
      have hready : ∀ (t : State), ViewInvariant t →
          t.selectProvince = s.selectProvince.map (fun _ => v) →
          t.programStreamListener = s.programStreamListener → EventReady t := by
        intro t hit hst hlt
        refine ⟨hit, hsel1 t hst, ?_⟩
        intro h
        rw [hlt] at h
        have := hlis h
        rw [hst]
        cases hsp : s.selectProvince with
        | none => rw [hsp] at this; cases this
        | some p => rfl
      refine ⟨s1, s2, ?_, ?_, hready s1 hi1 hs1 hm1, ?_, ?_⟩
      · simpa [dispatch, handleProvinceChange, hpl] using h1
      · simpa [dispatch, handleProvinceChange, hl1, hpl] using h2
      · apply hready s2 hi2
        · rw [hs2]; simp only; rw [hs1]; simp only; exact hmm _
        · rw [hm2]; simp only; rw [hm1]
      · rw [ho2, ho1]
        simp only
        rw [hd1, hp1]
  | programStreamChange c =>
    cases hsl : s.programStreamListener with
    | false =>
      exact ⟨s, s, by simp [dispatch, hsl], by simp [dispatch, hsl], ⟨hinv, hsel, hlis⟩,
        ⟨hinv, hsel, hlis⟩, rfl⟩
    | true =>
      have hsome := hlis hsl
      cases hsp : s.selectProvince with
      | none => rw [hsp] at hsome; cases hsome
      | some p =>
        have hp : lookup p ≠ Lookup.inherited := hsel p hsp
        have hinv0 : ViewInvariant { s with programStream := c } := hinv
        obtain ⟨s1, h1, hi1, hd1, hp1, hs1, hl1, hm1, ho1⟩ :=
          setProvince_step { s with programStream := c } p c hinv0 hp
        have hinv1 : ViewInvariant { s1 with programStream := c } := hi1
        obtain ⟨s2, h2, hi2, hd2, hp2, hs2, hl2, hm2, ho2⟩ :=
          setProvince_step { s1 with programStream := c } p c hinv1 hp
        simp only at hs1 hs2 hm1 hm2 hd1 hd2 ho1 ho2
        have hr1 : EventReady s1 := by
          refine ⟨hi1, ?_, ?_⟩
          · rw [hs1]; exact hsel
          · intro _; rw [hs1, hsp]; rfl
        have hr2 : EventReady s2 := by
          refine ⟨hi2, ?_, ?_⟩
          · rw [hs2, hs1]; exact hsel
          · intro _; rw [hs2, hs1, hsp]; rfl
        refine ⟨s1, s2, ?_, ?_, hr1, hr2, ?_⟩
        · simpa [dispatch, handleProgramStreamChange, hsl, hsp] using h1
        · have hsp1 : s1.selectProvince = some p := by rw [hs1, hsp]
          have hsl1 : s1.programStreamListener = true := by rw [hm1, hsl]
          simpa [dispatch, handleProgramStreamChange, hsl1, hsp1] using h2
        · rw [ho2, ho1, hd1]

theorem resolvable_provinceChange (v : String) (h : lookup v ≠ Lookup.inherited) :
    (Event.provinceChange v).Resolvable := by
  intro w hw
  cases hw
  exact h

theorem resolvable_programStreamChange (c : String) :
    (Event.programStreamChange c).Resolvable := by
  intro w hw
  cases hw

theorem run_ready (evs : List Event) :
    ∀ s0 : State, EventReady s0 → (∀ e ∈ evs, e.Resolvable) →
      ∃ s, run s0 evs = some s ∧ EventReady s := by
  induction evs with
  | nil => intro s0 h0 _; exact ⟨s0, rfl, h0⟩
  | cons e es ih =>
    intro s0 h0 hev
    obtain ⟨s1, _, h1, _, hr1, _, _⟩ :=
      dispatch_twice s0 e h0 (hev e (List.mem_cons_self _ _))
    obtain ⟨s, hs, hr⟩ := ih s1 hr1 (fun e1 he1 => hev e1 (List.mem_cons_of_mem _ he1))
    exact ⟨s, by simp [run, h1, hs], hr⟩

/-- C5. From any ready state (in particular a map with no batch), every
sequence of province-change and category-change events is handled and leaves at
most one batch attached to the map, the one referenced by `markersClusterGroup`;
and delivering one more event twice in a row leaves, the second time, at most
one batch, as many batches as the first time, holding the same markers (so the
same marker count). -/
theorem events_keep_single_batch (s0 : State) (evs : List Event) (h0 : EventReady s0)
    (hev : ∀ e ∈ evs, e.Resolvable) :
    ∃ s, run s0 evs = some s ∧
      attachedBatches s = s.markersClusterGroup.toList ∧ (attachedBatches s).length ≤ 1 ∧
      ∀ e : Event, e.Resolvable →
        ∃ s1 s2, dispatch s e = some s1 ∧ dispatch s1 e = some s2 ∧
          attachedBatches s1 = s1.markersClusterGroup.toList ∧
          attachedBatches s2 = s2.markersClusterGroup.toList ∧
          (attachedBatches s2).length ≤ 1 ∧
          (attachedBatches s2).length = (attachedBatches s1).length ∧
          (attachedBatches s2).map (fun g => g.markers.length) =
            (attachedBatches s1).map (fun g => g.markers.length) ∧
          attachedMarkers s2 = attachedMarkers s1 := by
  obtain ⟨s, hs, hr⟩ := run_ready evs s0 h0 hev
  refine ⟨s, hs, hr.1.2, attachedBatches_length_le_one s hr.1, ?_⟩
  intro e he
  obtain ⟨s1, s2, h1, h2, hr1, hr2, hm⟩ := dispatch_twice s e hr he
  refine ⟨s1, s2, h1, h2, hr1.1.2, hr2.1.2, attachedBatches_length_le_one s2 hr2.1, ?_, ?_, ?_⟩
  · have := congrArg List.length hm
    simpa [attachedMarkerLists] using this
  · have := congrArg (List.map List.length) hm
    simpa [attachedMarkerLists, List.map_map, Function.comp_def] using this
  · have := congrArg List.flatten hm
    simpa [attachedMarkerLists, attachedMarkers, List.flatMap] using this

theorem events_keep_single_batch_witness :
    (∃ s, run twoRegionState [Event.provinceChange "NU", Event.programStreamChange "High Wage",
        Event.provinceChange "ZZ"] = some s ∧
      attachedBatches s = s.markersClusterGroup.toList ∧ (attachedBatches s).length ≤ 1 ∧
      ∀ e : Event, e.Resolvable →
        ∃ s1 s2, dispatch s e = some s1 ∧ dispatch s1 e = some s2 ∧
          attachedBatches s1 = s1.markersClusterGroup.toList ∧
          attachedBatches s2 = s2.markersClusterGroup.toList ∧
          (attachedBatches s2).length ≤ 1 ∧
          (attachedBatches s2).length = (attachedBatches s1).length ∧
          (attachedBatches s2).map (fun g => g.markers.length) =
            (attachedBatches s1).map (fun g => g.markers.length) ∧
          attachedMarkers s2 = attachedMarkers s1) ∧
    (run twoRegionState [Event.provinceChange "ON"]).map
        (fun s => (attachedBatches s).map (fun g => g.markers.length)) = some [2] ∧
    (run twoRegionState [Event.provinceChange "ON", Event.provinceChange "ON"]).map
        (fun s => (attachedBatches s).map (fun g => g.markers.length)) = some [2] :=
  ⟨events_keep_single_batch twoRegionState
      [Event.provinceChange "NU", Event.programStreamChange "High Wage",
        Event.provinceChange "ZZ"]
      ⟨⟨rfl, rfl⟩, by decide, by decide⟩
      (by
        intro e he
        simp only [List.mem_cons, List.mem_singleton, List.not_mem_nil, or_false] at he
        rcases he with h | h | h <;> subst h
        · exact resolvable_provinceChange _ (by decide)
        · exact resolvable_programStreamChange _
        · exact resolvable_provinceChange _ (by decide)),
    by decide, by decide⟩

/-! ## C4 -/

theorem init_failed_load (env : Env) (v0 : String) (hc : env.mapContainer = true)
    (hl : env.leaflet = true) (hp : env.province = some v0)
    (hs : env.programStreamControl = true) (hfail : env.payload = none) :
    ∃ s0, init env = some s0 ∧ NoDataState env.mapStatus s0 ∧
      s0.error = some ⟨"Failed to load LMIA data. Please refresh the page.", "block"⟩ ∧
      mapView s0 = some ((4365, -7938), 80) := by
  cases hload : env.loading <;> cases herr : env.error <;>
    simp [init, initialState, initMap, loadLMIAData, showLoading, showError, hc, hl, hp, hs,
      hfail, hload, herr, NoDataState, ViewInvariant, attachedBatches, mapView]

theorem setProvince_noData (status : Option String) (s s1 : State) (v c : String)
    (hs : NoDataState status s) (h : setProvince s v c = some s1) :
    NoDataState status s1 ∧ attachedBatches s1 = [] ∧
      s1.selectProvince = s.selectProvince ∧
      ∀ d, lookup v = Lookup.descriptor d →
        mapView s1 = some (d.center, d.zoom) ∧
        s1.emptyState = some ⟨"No data available.", "block"⟩ := by
  obtain ⟨hd, hinv, hg, hcont, hpl, hsl, hsel, hst⟩ := hs
  cases hl : lookup v with
  | inherited =>
    obtain ⟨hm, _⟩ := hinv
    cases hmap : s.map with
    | none => rw [hmap] at hm; cases hm
    | some m => simp [setProvince, hmap, hl, hg] at h
  | undefined =>
    rw [setProvince_unresolved s v c hinv hl] at h
    cases h
    obtain ⟨hm, _⟩ := hinv
    cases hmap : s.map with
    | none => rw [hmap] at hm; cases hm
    | some m =>
      refine ⟨⟨hd, ⟨by simp [hmap], by simp [attachedBatches, hmap]⟩, rfl, hcont, hpl, hsl,
        hsel, hst⟩, by simp [attachedBatches, hmap], rfl, ?_⟩
      intro d hd1; cases hd1
  | descriptor d =>
    rw [setProvince_render s v c d hinv hl] at h
    simp only [hd, if_true] at h
    cases h
    have hf := showEmptyState_fields (clearedState s d) "No data available."
    obtain ⟨f1, f2, f3, f4, f5, f6, f7, f8, f9⟩ := hf
    refine ⟨⟨?_, viewInvariant_showEmptyState_cleared s d _, ?_, ?_, ?_, ?_, ?_, ?_⟩, ?_, ?_, ?_⟩
    · rw [f4]; exact hd
    · rw [f2]; rfl
    · rw [f7]; exact hcont
    · rw [f8]; exact hpl
    · rw [f9]; exact hsl
    · rw [f6]; exact hsel
    · rw [f3]; exact hst
    · rw [attachedBatches_showEmptyState, attachedBatches_clearedState]
    · rw [f6]; rfl
    · intro d1 hd1
      cases hd1
      refine ⟨?_, showEmptyState_emptyState _ _ hcont⟩
      simp [mapView, f1, clearedState]

theorem dispatch_noData (status : Option String) (s s1 : State) (e : Event)
    (hs : NoDataState status s) (h : dispatch s e = some s1) : NoDataState status s1 := by
  have hs0 := hs
  obtain ⟨hd, hinv, hg, hcont, hpl, hsl, hsel, hst⟩ := hs
  cases e with
  | provinceChange v =>
    have hs2 : NoDataState status { s with selectProvince := s.selectProvince.map (fun _ => v) } := by
      refine ⟨hd, hinv, hg, hcont, hpl, hsl, ?_, hst⟩
      cases hsp : s.selectProvince with
      | none => rw [hsp] at hsel; cases hsel
      | some p => rfl
    have h1 : setProvince { s with selectProvince := s.selectProvince.map (fun _ => v) } v
        s.programStream = some s1 := by
      simpa [dispatch, handleProvinceChange, hpl] using h
    exact (setProvince_noData status _ s1 v _ hs2 h1).1
  | programStreamChange c =>
    cases hsp : s.selectProvince with
    | none => rw [hsp] at hsel; cases hsel
    | some p =>
      have hs2 : NoDataState status { s with programStream := c } := hs0
      have h1 : setProvince { s with programStream := c } p c = some s1 := by
        simpa [dispatch, handleProgramStreamChange, hsl, hsp] using h
      exact (setProvince_noData status _ s1 p c hs2 h1).1

theorem run_noData (status : Option String) (evs : List Event) :
    ∀ s s1 : State, NoDataState status s → run s evs = some s1 → NoDataState status s1 := by
  induction evs with
  | nil => intro s s1 hs h; simp only [run, Option.some.injEq] at h; subst h; exact hs
  | cons e es ih =>
    intro s s1 hs h
    simp only [run] at h
    cases hd : dispatch s e with
    | none => rw [hd] at h; cases h
    | some s2 =>
      rw [hd] at h
      exact ih s2 s1 (dispatch_noData status s s2 e hs hd) h

theorem setProvince_noData_returns (status : Option String) (s : State) (R c : String)
    (d : RegionDescriptor) (hs : NoDataState status s) (hR : lookup R = Lookup.descriptor d) :
    ∃ s1, setProvince s R c = some s1 ∧ mapView s1 = some (d.center, d.zoom) ∧
      s1.emptyState = some ⟨"No data available.", "block"⟩ ∧ attachedBatches s1 = [] ∧
      s1.mapStatus = status := by
  have h : setProvince s R c =
      some (showEmptyState (clearedState s d) "No data available.") := by
    rw [setProvince_render s R c d hs.2.1 hR]
    simp [hs.1]
  obtain ⟨hn, hb, _, hv⟩ := setProvince_noData status s _ R c hs h
  exact ⟨_, h, (hv d hR).1, (hv d hR).2, hb, hn.2.2.2.2.2.2.2⟩

/-- C4, counterexample. After `init` with a failing data load, a province-change
event for `AB` runs a render cycle: the view moves from Ontario to the centre and
zoom of Alberta and the empty-state banner, absent before, shows
`No data available.`. -/
theorem failed_load_event_still_moves_view :
    loadLMIAData failingEnv = none ∧
    (init failingEnv).map (fun s0 => (mapView s0, s0.emptyState)) =
      some (some ((4365, -7938), 80), none) ∧
    ((init failingEnv).bind (fun s0 => dispatch s0 (Event.provinceChange "AB"))).map
        (fun s1 => (mapView s1, s1.emptyState)) =
      some (some ((5028, -11747), 60), some ⟨"No data available.", "block"⟩) := by
  decide

/-- C4, amended. After a failed data load (document complete, map created),
`init` returns with the listeners registered and no data, and after any later
events that were handled, no batch is attached and the status text is the one of
the document; a province-change event for a registry region, and a
category-change event while the province control holds a registry region, still
run `setProvince`: the view is recentred on that region and the empty-state
banner shows `No data available.`, with no batch attached and no status summary
published. -/
theorem failed_load_events_show_no_data (env : Env) (v0 : String)
    (hc : env.mapContainer = true) (hl : env.leaflet = true) (hp : env.province = some v0)
    (hs : env.programStreamControl = true) (hfail : env.payload = none) :
    ∃ s0, init env = some s0 ∧ s0.lmiaData = [] ∧ s0.provinceListener = true ∧
      s0.programStreamListener = true ∧
      ∀ (evs : List Event) (s : State), run s0 evs = some s →
        attachedBatches s = [] ∧ s.mapStatus = env.mapStatus ∧
        (∀ R d, lookup R = Lookup.descriptor d →
          ∃ s1, dispatch s (Event.provinceChange R) = some s1 ∧
            mapView s1 = some (d.center, d.zoom) ∧
            s1.emptyState = some ⟨"No data available.", "block"⟩ ∧
            attachedBatches s1 = [] ∧ s1.mapStatus = env.mapStatus) ∧
        (∀ c p d, s.selectProvince = some p → lookup p = Lookup.descriptor d →
          ∃ s1, dispatch s (Event.programStreamChange c) = some s1 ∧
            mapView s1 = some (d.center, d.zoom) ∧
            s1.emptyState = some ⟨"No data available.", "block"⟩ ∧
            attachedBatches s1 = [] ∧ s1.mapStatus = env.mapStatus) := by
  obtain ⟨s0, h0, hn0, _, _⟩ := init_failed_load env v0 hc hl hp hs hfail
  refine ⟨s0, h0, hn0.1, hn0.2.2.2.2.1, hn0.2.2.2.2.2.1, ?_⟩
  intro evs s hrun
  have hn := run_noData env.mapStatus evs s0 s hn0 hrun
  have hn1 := hn
  obtain ⟨hd, hinv, hg, hcont, hpl, hsl, hsel, hst⟩ := hn
  refine ⟨?_, hst, ?_, ?_⟩
  · rw [hinv.2, hg]; rfl
  · intro R d hR
    have hs2 : NoDataState env.mapStatus
        { s with selectProvince := s.selectProvince.map (fun _ => R) } := by
      refine ⟨hd, hinv, hg, hcont, hpl, hsl, ?_, hst⟩
      cases hsp : s.selectProvince with
      | none => rw [hsp] at hsel; cases hsel
      | some p => rfl
    obtain ⟨s1, h1, r1⟩ := setProvince_noData_returns env.mapStatus _ R s.programStream d hs2 hR
    refine ⟨s1, ?_, r1⟩
    simpa [dispatch, handleProvinceChange, hpl] using h1
  · intro c p d hsp hR
    have hs2 : NoDataState env.mapStatus { s with programStream := c } := hn1
    obtain ⟨s1, h1, r1⟩ := setProvince_noData_returns env.mapStatus _ p c d hs2 hR
    refine ⟨s1, ?_, r1⟩
    simpa [dispatch, handleProgramStreamChange, hsl, hsp] using h1

theorem failed_load_events_show_no_data_witness :
    ∃ s0, init failingEnv = some s0 ∧ s0.lmiaData = [] ∧ s0.provinceListener = true ∧
      s0.programStreamListener = true ∧
      ∀ (evs : List Event) (s : State), run s0 evs = some s →
        attachedBatches s = [] ∧ s.mapStatus = failingEnv.mapStatus ∧
        (∀ R d, lookup R = Lookup.descriptor d →
          ∃ s1, dispatch s (Event.provinceChange R) = some s1 ∧
            mapView s1 = some (d.center, d.zoom) ∧
            s1.emptyState = some ⟨"No data available.", "block"⟩ ∧
            attachedBatches s1 = [] ∧ s1.mapStatus = failingEnv.mapStatus) ∧
        (∀ c p d, s.selectProvince = some p → lookup p = Lookup.descriptor d →
          ∃ s1, dispatch s (Event.programStreamChange c) = some s1 ∧
            mapView s1 = some (d.center, d.zoom) ∧
            s1.emptyState = some ⟨"No data available.", "block"⟩ ∧
            attachedBatches s1 = [] ∧ s1.mapStatus = failingEnv.mapStatus) :=
  failed_load_events_show_no_data failingEnv "ON" rfl rfl rfl rfl rfl

end Lmia
